import Mathlib

/-!
Verification development for the YouTube push-notification subscription
lifecycle manager (`src/galaxyofdreams/modules/youtube.rs`).

The Rust code is shallowly embedded: `HashMap`s become association lists
(only lookup/insert/remove/retain semantics matter), `Instant`s become `Nat`
time stamps (seconds), the ambient mutex-guarded configuration becomes a
snapshot carried with each event, and the single network call per
reconciliation tick (the hub subscribe request) becomes a boolean oracle
carried with the `UpdateSubscriptions` event.  Side effects (announcements,
log messages) are collected into an explicit effect list.
-/

namespace Dnbot

/-! ## Association-list maps (embedding of `std::collections::HashMap`) -/

/-- Lookup of a key in an association list; models `HashMap::get` /
`HashMap::contains_key` (via `isSome`). -/
def alLookup {α : Type} (k : String) : List (String × α) → Option α
  | [] => none
  | (k', v) :: t => if k = k' then some v else alLookup k t

/-- Remove every binding of a key; models `HashMap::remove` (lookup-equivalent). -/
def alRemove {α : Type} (k : String) : List (String × α) → List (String × α)
  | [] => []
  | (k', v) :: t => if k' = k then alRemove k t else (k', v) :: alRemove k t

/-- Insert (replacing any previous binding); models `HashMap::insert`. -/
def alInsert {α : Type} (k : String) (v : α) (l : List (String × α)) :
    List (String × α) :=
  (k, v) :: alRemove k l

/-- Keep only the entries whose instant lies strictly in the future; models
`map.retain(|_, instant| *instant > now)` in `Announcer::run`. -/
def sweep (now : Nat) : List (String × Nat) → List (String × Nat)
  | [] => []
  | (k, t) :: rest => if now < t then (k, t) :: sweep now rest else sweep now rest

theorem alLookup_sweep_none {now : Nat} {ch : String} {l : List (String × Nat)}
    (h : alLookup ch l = none) : alLookup ch (sweep now l) = none := by
  induction l with
  | nil => simpa [sweep] using h
  | cons kv t ih =>
    obtain ⟨k, v⟩ := kv
    simp only [alLookup] at h
    by_cases hk : ch = k
    · simp [hk] at h
    · simp only [alLookup, sweep, hk, if_neg hk, if_false] at h ⊢
      split
      · simp [alLookup, hk, ih h]
      · exact ih h

theorem alLookup_sweep_isSome {now : Nat} {ch : String} {l : List (String × Nat)}
    (h : (alLookup ch (sweep now l)).isSome = true) :
    (alLookup ch l).isSome = true := by
  by_cases h0 : alLookup ch l = none
  · rw [alLookup_sweep_none h0] at h
    simp at h
  · cases he : alLookup ch l with
    | none => exact absurd he h0
    | some v => simp

theorem alLookup_remove_self {α : Type} {ch : String} {l : List (String × α)} :
    alLookup ch (alRemove ch l) = none := by
  induction l with
  | nil => simp [alRemove, alLookup]
  | cons kv t ih =>
    obtain ⟨k, v⟩ := kv
    simp only [alRemove]
    split
    · exact ih
    · rename_i hk
      have : ch ≠ k := fun hc => hk hc.symm
      simp [alLookup, this, ih]

theorem alLookup_remove_ne {α : Type} {ch k : String} {l : List (String × α)}
    (h : ch ≠ k) : alLookup ch (alRemove k l) = alLookup ch l := by
  induction l with
  | nil => simp [alRemove]
  | cons kv t ih =>
    obtain ⟨k', v⟩ := kv
    simp only [alRemove, alLookup]
    split
    · rename_i hk
      subst hk
      simp [alLookup, h, ih]
    · simp only [alLookup]
      split
      · rfl
      · exact ih

theorem alLookup_insert_self {α : Type} {ch : String} {v : α} {l : List (String × α)} :
    alLookup ch (alInsert ch v l) = some v := by
  simp [alInsert, alLookup]

theorem alLookup_insert_ne {α : Type} {ch k : String} {v : α} {l : List (String × α)}
    (h : ch ≠ k) : alLookup ch (alInsert k v l) = alLookup ch l := by
  simp [alInsert, alLookup, h, alLookup_remove_ne h]

/-! ## The dedup buffer (`Buffer<T>` in the source) -/

/-- Fixed size FIFO buffer; front of `inner` is the oldest element
(`VecDeque` with `push_back`/`pop_front`). -/
structure Buffer (α : Type) where
  capacity : Nat
  inner : List α
deriving DecidableEq

namespace Buffer

/-- Constructor `Buffer::new`: `assert!(capacity > 0)` means construction fails fast on 0;
the panic is modelled as `none`. -/
def new (α : Type) (capacity : Nat) : Option (Buffer α) :=
  if capacity > 0 then some ⟨capacity, []⟩ else none

/-- Operation `Buffer::insert`: if at capacity, pop and return the oldest element, then
append the new value; else just append. -/
def insert {α : Type} (b : Buffer α) (value : α) : Buffer α × Option α :=
  if b.inner.length = b.capacity then
    match b.inner with
    | [] => (⟨b.capacity, [value]⟩, none)
    | x :: rest => (⟨b.capacity, rest ++ [value]⟩, some x)
  else
    (⟨b.capacity, b.inner ++ [value]⟩, none)

/-- Operation `Buffer::contains`: linear membership test on the deque. -/
def contains {α : Type} [BEq α] (b : Buffer α) (x : α) : Bool :=
  b.inner.contains x

end Buffer

/-- Fold `Buffer.insert` over a list of values (keeping the buffer). -/
def insertAll {α : Type} (b : Buffer α) : List α → Buffer α
  | [] => b
  | x :: xs => insertAll (b.insert x).1 xs

/-! ## Data model -/

abbrev YoutubeChannel := String
abbrev YoutubeId := String
abbrev ChannelId := Nat

/-- Per-topic announcement rule: destination chat channel and text template. -/
structure Subscription where
  channel_id : ChannelId
  text : String
deriving DecidableEq

/-- Structure `YoutubeConfig`: the module configuration snapshot.  The `subscriptions`
map is an association list; its list order is the (otherwise unspecified)
`HashMap` iteration order used by candidate selection. -/
structure YoutubeConfig where
  enabled : Bool
  subscriptions : List (YoutubeChannel × Subscription)
  log_channel : Option ChannelId
deriving DecidableEq

/-- Default configuration `YoutubeConfig::default()`. -/
def YoutubeConfig.default : YoutubeConfig := ⟨false, [], none⟩

/-- A parsed feed notification (`Publication`). -/
structure Publication where
  title : String
  yt_id : YoutubeId
  yt_channel : YoutubeChannel
deriving DecidableEq

/-- The `Event` enum placed on the announcer channel. -/
inductive Event where
  | publication (p : Publication)
  | updateSubscriptions
  | subscribed (ch : YoutubeChannel) (lease : Nat)
  | subscriptionDenied (ch : YoutubeChannel) (reason : Option String)
deriving DecidableEq

/-- Observable side effects of one loop iteration: a dispatched downstream
announcement (`client.create_message(channel_id).content(content)` with the
publication title used in the log line), or a log/warn message. -/
inductive Effect where
  | announce (channelId : ChannelId) (content : String) (title : String)
  | warn (msg : String)
deriving DecidableEq

/-- State owned by the `Announcer::run` loop.  `timer` is the absolute wake
instant of the single outstanding timer; `subscribing` is the local flag set
on each reconciliation tick. -/
structure AnnouncerState where
  history : Buffer YoutubeId
  subscribed : List (YoutubeChannel × Nat)
  pending : List (YoutubeChannel × Nat)
  subscribing : Bool
  timer : Nat
deriving DecidableEq

/-- The ambient inputs of one loop iteration: the current instant, the
configuration snapshot read under the mutex, and the outcome of the (at most
one) hub subscribe call issued during the iteration. -/
structure Ambient where
  now : Nat
  cfg : YoutubeConfig
  subscribeOk : Bool

/-- Constant `timeout` in `Announcer::run`: 30 seconds. -/
def timeout : Nat := 30

/-- The 24-hour far-future fallback duration. -/
def day : Nat := 24 * 60 * 60

/-- Initial state of the loop: empty history buffer of capacity 10, empty
ledgers, dummy timer one day out (time starts at 0). -/
def initState : AnnouncerState := ⟨⟨10, []⟩, [], [], false, day⟩

/-- Minimum of the values of `pending` then `subscribed`, i.e.
`$a.values().chain($b.values()).min()` in the `first!` macro. -/
def minVals : List (String × Nat) → Option Nat
  | [] => none
  | (_, v) :: t =>
    match minVals t with
    | none => some v
    | some m => some (min v m)

/-- The `first!(pending, subscribed)` macro: wake at the earliest deadline or
expiry, defaulting to now + 24h when both maps are empty. -/
def firstWake (now : Nat) (pending subscribed : List (String × Nat)) : Nat :=
  match minVals (pending ++ subscribed) with
  | some m => m
  | none => now + day

/-- Candidate selection: the first configured topic that is in neither
`subscribed` nor `pending` (the `.keys().filter(..).next()` chain). -/
def candidate (subs : List (YoutubeChannel × Subscription))
    (pending subscribed : List (YoutubeChannel × Nat)) : Option YoutubeChannel :=
  (subs.find? (fun kv =>
    (alLookup kv.1 subscribed).isNone && (alLookup kv.1 pending).isNone)).map (·.1)

/-- Warnings emitted for pending entries dropped by the expiry sweep
("Validation timed out"). -/
def timeoutWarnings (now : Nat) (pending : List (YoutubeChannel × Nat)) :
    List Effect :=
  (pending.filter (fun kv => decide (kv.2 ≤ now))).map
    (fun kv => Effect.warn ("Unable to subscribe to " ++ kv.1 ++ ": Validation timed out"))

/-- The `Event::Publication` arm of `Announcer::run`: skip when disabled, skip
unknown topics, dedup via the history buffer, otherwise record the id and
dispatch the rendered announcement. -/
def handlePublication (s : AnnouncerState) (a : Ambient) (p : Publication) :
    AnnouncerState × List Effect :=
  if a.cfg.enabled = false then
    (s, [])
  else
    match alLookup p.yt_channel a.cfg.subscriptions with
    | some sub =>
      if s.history.contains p.yt_id then
        (s, [])
      else
        ({ s with history := (s.history.insert p.yt_id).1 },
         [Effect.announce sub.channel_id (String.replace sub.text "%ID%" p.yt_id) p.title])
    | none =>
      (s, [Effect.warn ("Skipping announcement for " ++ p.yt_channel ++ ": not subscribed")])

/-- The `Event::UpdateSubscriptions` arm (the reconciliation tick): sweep expired
entries, stop if disabled, pick a candidate, attempt one subscribe call
(oracle `a.subscribeOk`), and schedule the next wake. -/
def reconsider (s : AnnouncerState) (a : Ambient) : AnnouncerState × List Effect :=
  let subscribed1 := sweep a.now s.subscribed
  let pending1 := sweep a.now s.pending
  let logs := timeoutWarnings a.now s.pending
  if a.cfg.enabled = false then
    ({ s with subscribed := subscribed1, pending := pending1 }, logs)
  else
    match candidate a.cfg.subscriptions pending1 subscribed1 with
    | some ch =>
      if a.subscribeOk then
        ({ s with subscribed := subscribed1,
                  pending := alInsert ch (a.now + timeout) pending1,
                  subscribing := true,
                  timer := a.now + timeout }, logs)
      else
        ({ s with subscribed := subscribed1,
                  pending := pending1,
                  subscribing := true,
                  timer := a.now + timeout },
         logs ++ [Effect.warn ("Unable to subscribe to " ++ ch)])
    | none =>
      ({ s with subscribed := subscribed1,
                pending := pending1,
                subscribing := false,
                timer := firstWake a.now pending1 subscribed1 }, logs)

/-- The `Event::Subscribed` arm: drop the pending entry, record the expiry at
`now + lease.saturating_sub(600)` (`Nat` subtraction is saturating), and
recompute the wake only when no subscribe attempt is in flight. -/
def handleSubscribed (s : AnnouncerState) (a : Ambient)
    (ch : YoutubeChannel) (lease : Nat) : AnnouncerState × List Effect :=
  let pending1 := alRemove ch s.pending
  let subscribed1 := alInsert ch (a.now + (lease - 600)) s.subscribed
  ({ s with pending := pending1,
            subscribed := subscribed1,
            timer := if s.subscribing then s.timer
                     else firstWake a.now pending1 subscribed1 }, [])

/-- The `Event::SubscriptionDenied` arm: drop the pending entry and back off 30s. -/
def handleDenied (s : AnnouncerState) (a : Ambient)
    (ch : YoutubeChannel) (reason : Option String) : AnnouncerState × List Effect :=
  ({ s with pending := alRemove ch s.pending, timer := a.now + timeout },
   match reason with
   | some r => [Effect.warn ("Subscription to " ++ ch ++ " denied: " ++ r)]
   | none => [Effect.warn ("Subscription to " ++ ch ++ " denied")])

/-- One iteration of the `Announcer::run` event loop. -/
def step (s : AnnouncerState) (a : Ambient) (e : Event) :
    AnnouncerState × List Effect :=
  match e with
  | .publication p => handlePublication s a p
  | .updateSubscriptions => reconsider s a
  | .subscribed ch lease => handleSubscribed s a ch lease
  | .subscriptionDenied ch reason => handleDenied s a ch reason

/-- Run the loop over a finite trace of (ambient, event) pairs from the
initial state. -/
def runTrace (tr : List (Ambient × Event)) : AnnouncerState :=
  tr.foldl (fun s ae => (step s ae.1 ae.2).1) initState

/-! ## Hub client (`Subscriber`) -/

def HUB_URL : String := "https://pubsubhubbub.appspot.com/subscribe"
def TOPIC_URL : String := "https://www.youtube.com/xml/feeds/videos.xml?channel_id="

/-- Outcome of one HTTP exchange as seen by `reqwest::Client::send`: either a
response arrived (with some status code, 2xx or not), or the transport failed
(connection error, the 10-second client timeout, ...). `send` returns `Err`
only in the transport case. -/
inductive HttpResult where
  | response (status : Nat)
  | transportError (msg : String)

/-- The outbound form-encoded POST issued by `Subscriber::subscribe`. -/
structure SubscribeRequest where
  url : String
  form : List (String × String)

/-- The request built by `Subscriber::subscribe` for a channel. -/
def subscribeRequest (ext_url : String) (channel : YoutubeChannel) : SubscribeRequest :=
  ⟨HUB_URL,
   [("hub.mode", "subscribe"),
    ("hub.topic", TOPIC_URL ++ channel),
    ("hub.callback", ext_url)]⟩

/-- Method `Subscriber::subscribe`: `self.client.post(HUB_URL).form(&form).send().await?; Ok(())`.
The `?` propagates only transport errors; the response status is never
inspected (there is no `error_for_status`), so any received response yields
`Ok`. -/
def Subscriber.subscribe (ext_url : String)
    (transport : SubscribeRequest → HttpResult) (channel : YoutubeChannel) :
    Except String Unit :=
  match transport (subscribeRequest ext_url channel) with
  | .response _ => Except.ok ()
  | .transportError e => Except.error e

/-! ## Feed parser (`Publication::from_str`) -/

def BASE_NS : String := "http://www.w3.org/2005/Atom"
def YT_NS : String := "http://www.youtube.com/xml/schemas/2015"

/-- Parse errors of `Publication::from_str` (`PubError`). -/
inductive PubError where
  | invalidXml
  | missingChild (name : String)
  | missingChildInner (name : String)
deriving DecidableEq

/-- An XML element as used by the parser: qualified name, child elements and
text nodes (the `minidom::Element` surface consumed by the source). -/
inductive Element where
  | mk (name : String) (ns : String) (children : List Element) (texts : List String)

def Element.name : Element → String
  | .mk n _ _ _ => n

def Element.ns : Element → String
  | .mk _ n _ _ => n

def Element.children : Element → List Element
  | .mk _ _ c _ => c

def Element.texts : Element → List String
  | .mk _ _ _ t => t

/-- Lookup `minidom::Element::get_child(name, ns)`: first child element with the
given name in the given namespace. -/
def getChild (e : Element) (name ns : String) : Option Element :=
  e.children.find? (fun c => c.name == name && c.ns == ns)

/-- Helper `entry_text`: inner text of a named child; `MissingChild` if the element
is absent, `MissingChildInner` if it has no text node. -/
def entry_text (entry : Element) (name ns : String) : Except PubError String :=
  match getChild entry name ns with
  | none => Except.error (PubError.missingChild name)
  | some c =>
    match c.texts with
    | [] => Except.error (PubError.missingChildInner name)
    | t :: _ => Except.ok t

/-- Parsing `Publication::from_str`.  The `minidom` XML parse of the raw string is an
external library call, abstracted as the `parse` argument; its failure is
mapped to `InvalidXml` exactly as `s.parse().map_err(|_| PubError::InvalidXml)?`
does. -/
def Publication.fromStr (parse : String → Option Element) (s : String) :
    Except PubError Publication :=
  match parse s with
  | none => Except.error PubError.invalidXml
  | some root =>
    match getChild root "entry" BASE_NS with
    | none => Except.error (PubError.missingChild "entry")
    | some entry =>
      match entry_text entry "title" BASE_NS with
      | .error e => Except.error e
      | .ok title =>
        match entry_text entry "videoId" YT_NS with
        | .error e => Except.error e
        | .ok yt_id =>
          match entry_text entry "channelId" YT_NS with
          | .error e => Except.error e
          | .ok yt_channel => Except.ok ⟨title, yt_id, yt_channel⟩

/-! ## HTTP handlers (`http_get`, `http_post`) -/

/-- A reply from the GET handler: a bare status code, or a 200 whose body is
the echoed challenge string. -/
inductive GetReply where
  | status (code : Nat)
  | challengeBody (body : String)
deriving DecidableEq

/-- Embedding of `str::starts_with` for the ASCII feed-URL prefix (byte prefix = char
prefix for ASCII). -/
def strStartsWith (s p : String) : Bool :=
  p.data.isPrefixOf s.data

/-- Embedding of `topic.get(TOPIC_URL.len()..)`: drop the prefix (in chars; the prefix is
ASCII so byte and char counts coincide). -/
def strDropChars (s : String) (n : Nat) : String :=
  ⟨s.data.drop n⟩

/-- Models `str::parse::<u64>` on its canonical decimal inputs: all digits,
nonempty, value below 2^64. -/
def parseDigits (acc : Nat) : List Char → Option Nat
  | [] => some acc
  | c :: cs => if c.isDigit then parseDigits (acc * 10 + (c.toNat - 48)) cs else none

def parseU64 (s : String) : Option Nat :=
  if s.data = [] then none
  else
    match parseDigits 0 s.data with
    | some n => if n < 2 ^ 64 then some n else none
    | none => none

/-- Handler `http_get`: the webhook verification/denial handler.  Returns the reply
(`none` is mapped to 400 by the route) and the events offered to the channel
(`try_send`; saturation-dropping is outside this function, as in the source). -/
def http_get (cfg : YoutubeConfig) (query : List (String × String)) :
    Option GetReply × List Event :=
  match alLookup "hub.mode" query with
  | none => (none, [])
  | some mode =>
    match alLookup "hub.topic" query with
    | none => (none, [])
    | some topic =>
      if strStartsWith topic TOPIC_URL = false then
        (none, [])
      else
        let yt_channel := strDropChars topic TOPIC_URL.length
        match alLookup yt_channel cfg.subscriptions with
        | none => (some (GetReply.status 404), [])
        | some _ =>
          if mode = "denied" then
            (some (GetReply.status 200),
             [Event.subscriptionDenied yt_channel (alLookup "hub.reason" query)])
          else if mode = "subscribe" then
            match alLookup "hub.challenge" query with
            | none => (none, [])
            | some challenge =>
              match alLookup "hub.lease_seconds" query with
              | none => (none, [])
              | some ls =>
                match parseU64 ls with
                | none => (none, [])
                | some lease =>
                  (some (GetReply.challengeBody challenge),
                   [Event.subscribed yt_channel lease])
          else
            (none, [])

/-- Handler `http_post`: decode the body as UTF-8 (`std::str::from_utf8`, abstracted
as `decode`), parse the publication, enqueue it and reply 200; any failure
yields `none` (mapped to 400 by the route) and no event. -/
def http_post (decode : List Nat → Option String)
    (parse : String → Option Element) (bytes : List Nat) :
    Option Nat × List Event :=
  match decode bytes with
  | none => (none, [])
  | some raw =>
    match Publication.fromStr parse raw with
    | .error _ => (none, [])
    | .ok p => (some 200, [Event.publication p])

/-- The POST route: `http_post(..).unwrap_or(StatusCode::BAD_REQUEST)`. -/
def postRoute (decode : List Nat → Option String)
    (parse : String → Option Element) (bytes : List Nat) : Nat × List Event :=
  match http_post decode parse bytes with
  | (some st, evs) => (st, evs)
  | (none, _) => (400, [])

/-! ## Configuration handler (`impl EventHandler for Youtube`) -/

/-- Handler `Youtube::config`: replace the stored configuration wholesale, log the
enable/disable transition, and signal the announcer to update subscriptions
only when the newly installed configuration is enabled. -/
def configUpdate (cur incoming : YoutubeConfig) :
    YoutubeConfig × List Effect × List Event :=
  let old := cur
  let inner := incoming
  let logs :=
    if old.enabled ≠ inner.enabled then
      if inner.enabled then [Effect.warn "Module enabled"]
      else [Effect.warn "Module disabled"]
    else [Effect.warn "Config updated"]
  (inner, logs, if inner.enabled then [Event.updateSubscriptions] else [])

/-! ## Lemmas: the Pending/Subscribed disjointness invariant -/

/-- No topic is simultaneously a key of Pending and of Subscribed. -/
def NoOverlap (s : AnnouncerState) : Prop :=
  ∀ ch, (alLookup ch s.pending).isSome = true → alLookup ch s.subscribed = none

theorem candidate_spec {subs : List (YoutubeChannel × Subscription)}
    {pending subscribed : List (YoutubeChannel × Nat)} {ch : YoutubeChannel}
    (h : candidate subs pending subscribed = some ch) :
    alLookup ch pending = none ∧ alLookup ch subscribed = none := by
  unfold candidate at h
  cases hf : subs.find? (fun kv =>
      (alLookup kv.1 subscribed).isNone && (alLookup kv.1 pending).isNone) with
  | none => rw [hf] at h; simp at h
  | some kv =>
    rw [hf] at h
    have hp := List.find?_some hf
    rw [Bool.and_eq_true] at hp
    obtain ⟨h1, h2⟩ := hp
    rw [Option.isNone_iff_eq_none] at h1 h2
    simp only [Option.map] at h
    cases h
    exact ⟨h2, h1⟩

theorem handlePublication_preserves {s : AnnouncerState} {a : Ambient}
    {p : Publication} (h : NoOverlap s) : NoOverlap (handlePublication s a p).1 := by
  unfold handlePublication
  split
  · exact h
  · split
    · split
      · exact h
      · exact fun ch hch => h ch hch
    · exact h

theorem reconsider_preserves {s : AnnouncerState} {a : Ambient}
    (h : NoOverlap s) : NoOverlap (reconsider s a).1 := by
  have hsw : NoOverlap { s with subscribed := sweep a.now s.subscribed,
                                pending := sweep a.now s.pending } := by
    intro ch hch
    exact alLookup_sweep_none (h ch (alLookup_sweep_isSome hch))
  simp only [reconsider]
  split
  · exact fun ch hch => hsw ch hch
  · cases hc : candidate a.cfg.subscriptions (sweep a.now s.pending) (sweep a.now s.subscribed) with
    | none =>
      exact fun ch hch => hsw ch hch
    | some ch0 =>
      split
      · rename_i ch1 heq1
        injection heq1 with heq2
        subst heq2
        split
        · intro ch hch
          by_cases heq : ch = ch0
          · subst heq
            exact (candidate_spec hc).2
          · rw [alLookup_insert_ne heq] at hch
            exact alLookup_sweep_none (h ch (alLookup_sweep_isSome hch))
        · exact fun ch hch => hsw ch hch
      · rename_i heq1
        simp at heq1

theorem handleSubscribed_preserves {s : AnnouncerState} {a : Ambient}
    {ch0 : YoutubeChannel} {lease : Nat} (h : NoOverlap s) :
    NoOverlap (handleSubscribed s a ch0 lease).1 := by
  intro ch hch
  simp only [handleSubscribed] at hch ⊢
  by_cases heq : ch = ch0
  · subst heq
    rw [alLookup_remove_self] at hch
    simp at hch
  · rw [alLookup_remove_ne heq] at hch
    rw [alLookup_insert_ne heq]
    exact h ch hch

theorem handleDenied_preserves {s : AnnouncerState} {a : Ambient}
    {ch0 : YoutubeChannel} {reason : Option String} (h : NoOverlap s) :
    NoOverlap (handleDenied s a ch0 reason).1 := by
  intro ch hch
  simp only [handleDenied] at hch ⊢
  by_cases heq : ch = ch0
  · subst heq
    rw [alLookup_remove_self] at hch
    simp at hch
  · rw [alLookup_remove_ne heq] at hch
    exact h ch hch

theorem step_preserves {s : AnnouncerState} {a : Ambient} {e : Event}
    (h : NoOverlap s) : NoOverlap (step s a e).1 := by
  cases e with
  | publication p => exact handlePublication_preserves h
  | updateSubscriptions => exact reconsider_preserves h
  | subscribed ch lease => exact handleSubscribed_preserves h
  | subscriptionDenied ch reason => exact handleDenied_preserves h

theorem foldl_preserves (tr : List (Ambient × Event)) :
    ∀ s : AnnouncerState, NoOverlap s →
      NoOverlap (tr.foldl (fun s ae => (step s ae.1 ae.2).1) s) := by
  induction tr with
  | nil => exact fun s h => h
  | cons ae t ih =>
    intro s h
    exact ih _ (step_preserves h)

theorem initState_noOverlap : NoOverlap initState := by
  intro ch hch
  simp [initState, alLookup] at hch

/-! ## Lemmas: the dedup buffer -/

theorem insertAll_append {α : Type} (b : Buffer α) (xs ys : List α) :
    insertAll b (xs ++ ys) = insertAll (insertAll b xs) ys := by
  induction xs generalizing b with
  | nil => rfl
  | cons x t ih => simp [insertAll, ih]

theorem Buffer.insert_at_capacity {α : Type} (b : Buffer α) (v z : α) (zs : List α)
    (hfull : b.inner.length = b.capacity) (hinner : b.inner = z :: zs) :
    b.insert v = (⟨b.capacity, zs ++ [v]⟩, some z) := by
  obtain ⟨cap, inner⟩ := b
  simp only at hfull hinner
  subst hinner
  simp [Buffer.insert, hfull]

theorem Buffer.insert_not_full {α : Type} (b : Buffer α) (v : α)
    (h : b.inner.length ≠ b.capacity) :
    b.insert v = (⟨b.capacity, b.inner ++ [v]⟩, none) := by
  unfold Buffer.insert
  rw [if_neg h]

theorem insertAll_fill {α : Type} (C : Nat) (xs : List α) :
    ∀ l : List α, l.length + xs.length ≤ C →
      insertAll ⟨C, l⟩ xs = ⟨C, l ++ xs⟩ := by
  induction xs with
  | nil =>
    intro l _
    simp [insertAll]
  | cons x t ih =>
    intro l h
    simp only [List.length_cons] at h
    have hne : (⟨C, l⟩ : Buffer α).inner.length ≠ (⟨C, l⟩ : Buffer α).capacity := by
      simp only
      omega
    simp only [insertAll, Buffer.insert_not_full _ _ hne]
    have := ih (l ++ [x]) (by simp; omega)
    simpa [List.append_assoc] using this

theorem Buffer.contains_insert_self {α : Type} [BEq α] [LawfulBEq α]
    (b : Buffer α) (x : α) : ((b.insert x).1).contains x = true := by
  unfold Buffer.insert
  split
  · split
    · simp [Buffer.contains, List.contains]
    · simp [Buffer.contains, List.contains]
  · simp [Buffer.contains, List.contains]

/-- Number of downstream announcements dispatched in an effect list. -/
def countAnnounces (l : List Effect) : Nat :=
  (l.filter (fun e => match e with | .announce _ _ _ => true | _ => false)).length

theorem handlePublication_dup (s : AnnouncerState) (a : Ambient) (q : Publication)
    (h : s.history.contains q.yt_id = true) :
    countAnnounces (handlePublication s a q).2 = 0 := by
  unfold handlePublication
  split
  · rfl
  · split
    · simp [h, countAnnounces]
    · simp [countAnnounces]

/-! ## Claim theorems -/

/-- C1: For every reachable state of the Announcer event loop (any sequence of
Publication, UpdateSubscriptions/Reconsider, Subscribed, and
SubscriptionDenied events processed from the initial empty state, under
arbitrary per-event configuration snapshots, times, and subscribe-call
outcomes), no topic is a key of both the Pending map and the Subscribed map
at the same time. -/
theorem C1_pending_subscribed_disjoint (tr : List (Ambient × Event))
    (ch : YoutubeChannel)
    (h : (alLookup ch (runTrace tr).pending).isSome = true) :
    alLookup ch (runTrace tr).subscribed = none :=
  foldl_preserves tr initState initState_noOverlap ch h

/-- Witness for C1: after one successful reconciliation tick the topic "UCa"
is pending and, as the theorem states, absent from Subscribed. -/
theorem C1_pending_subscribed_disjoint_w :
    (alLookup "UCa"
      (runTrace [(⟨0, ⟨true, [("UCa", ⟨1, "v %ID%"⟩)], none⟩, true⟩,
                  Event.updateSubscriptions)]).pending).isSome = true ∧
    alLookup "UCa"
      (runTrace [(⟨0, ⟨true, [("UCa", ⟨1, "v %ID%"⟩)], none⟩, true⟩,
                  Event.updateSubscriptions)]).subscribed = none :=
  ⟨by decide, C1_pending_subscribed_disjoint _ "UCa" (by decide)⟩

/-- C6: For the dedup Buffer of capacity C > 0: inserting C+1 pairwise
distinct elements into an initially empty buffer leaves exactly the last C
inserted elements (so the first is no longer contained and each of the last C
is); insert at capacity evicts and returns the oldest element, otherwise it
returns nothing; construction with capacity 0 fails fast. -/
theorem C6_buffer_fifo (C : Nat) (hC : 0 < C) (x : String) (rest : List String)
    (hlen : rest.length = C) (hnd : (x :: rest).Nodup) :
    Buffer.new String 0 = none ∧
    insertAll ⟨C, []⟩ (x :: rest) = ⟨C, rest⟩ ∧
    (insertAll ⟨C, []⟩ (x :: rest)).contains x = false ∧
    (∀ y ∈ rest, (insertAll ⟨C, []⟩ (x :: rest)).contains y = true) ∧
    (∀ (b : Buffer String) (v z : String) (zs : List String),
        b.inner.length = b.capacity → b.inner = z :: zs →
        b.insert v = (⟨b.capacity, zs ++ [v]⟩, some z)) ∧
    (∀ (b : Buffer String) (v : String), b.inner.length ≠ b.capacity →
        b.insert v = (⟨b.capacity, b.inner ++ [v]⟩, none)) := by
  have hne : rest ≠ [] := by
    intro he
    rw [he] at hlen
    simp at hlen
    omega
  obtain ⟨ys, z, hz⟩ : ∃ ys z, rest = ys ++ [z] := by
    rcases List.eq_nil_or_concat rest with h1 | ⟨ys, z, hzc⟩
    · exact absurd h1 hne
    · exact ⟨ys, z, by simpa [List.concat_eq_append] using hzc⟩
  have hmain : insertAll ⟨C, []⟩ (x :: rest) = ⟨C, rest⟩ := by
    have hsplit : x :: rest = (x :: ys) ++ [z] := by rw [hz]; simp
    have hys : ys.length + 1 = C := by
      rw [hz] at hlen
      simpa using hlen
    have hfill : insertAll ⟨C, ([] : List String)⟩ (x :: ys) = ⟨C, x :: ys⟩ := by
      have := insertAll_fill C (x :: ys) [] (by simp; omega)
      simpa using this
    rw [hsplit, insertAll_append, hfill]
    simp only [insertAll]
    rw [Buffer.insert_at_capacity ⟨C, x :: ys⟩ z x ys (by simpa using hys) rfl]
    rw [hz]
  have hx : x ∉ rest := (List.nodup_cons.mp hnd).1
  refine ⟨rfl, hmain, ?_, ?_, ?_, ?_⟩
  · rw [hmain]
    simp [Buffer.contains, List.contains]
    exact hx
  · intro y hy
    rw [hmain]
    simp [Buffer.contains, List.contains]
    exact hy
  · exact fun b v z0 zs hfull hinner => Buffer.insert_at_capacity b v z0 zs hfull hinner
  · exact fun b v h => Buffer.insert_not_full b v h

/-- Witness for C6: capacity 2, inserting the three distinct ids "a", "b",
"c" leaves a buffer containing "b" and "c" but not "a". -/
theorem C6_buffer_fifo_w :
    (insertAll ⟨2, []⟩ ["a", "b", "c"]).contains "a" = false ∧
    (insertAll ⟨2, []⟩ ["a", "b", "c"]).contains "c" = true :=
  ⟨(C6_buffer_fifo 2 (by decide) "a" ["b", "c"] (by decide) (by decide)).2.2.1,
   (C6_buffer_fifo 2 (by decide) "a" ["b", "c"] (by decide) (by decide)).2.2.2.1
     "c" (by decide)⟩

/-- C4: Two Publication events with the same content id for a topic present
in DesiredSet while the module is enabled (the second following the first, so
nothing pushed the id out of the dedup window) yield exactly one downstream
announcement: the first inserts the id into the window and dispatches, the
second is dropped by the contains check (for any configuration snapshot seen
by the second event). -/
theorem C4_duplicate_suppression (s : AnnouncerState) (a1 a2 : Ambient)
    (p q : Publication)
    (hen : a1.cfg.enabled = true)
    (hsub : (alLookup p.yt_channel a1.cfg.subscriptions).isSome = true)
    (hnew : s.history.contains p.yt_id = false)
    (hid : q.yt_id = p.yt_id) :
    countAnnounces (step s a1 (.publication p)).2 = 1 ∧
    ((step s a1 (.publication p)).1.history).contains p.yt_id = true ∧
    countAnnounces (step (step s a1 (.publication p)).1 a2 (.publication q)).2 = 0 := by
  cases hs : alLookup p.yt_channel a1.cfg.subscriptions with
  | none => rw [hs] at hsub; simp at hsub
  | some sub =>
    have h1 : step s a1 (.publication p) =
        ({ s with history := (s.history.insert p.yt_id).1 },
         [Effect.announce sub.channel_id (String.replace sub.text "%ID%" p.yt_id) p.title]) := by
      simp [step, handlePublication, hen, hs, hnew]
    have hcont : ((step s a1 (.publication p)).1.history).contains p.yt_id = true := by
      rw [h1]
      exact Buffer.contains_insert_self s.history p.yt_id
    refine ⟨?_, hcont, ?_⟩
    · rw [h1]
      simp [countAnnounces]
    · exact handlePublication_dup _ a2 q (by rw [hid]; exact hcont)

/-- Witness for C4: a concrete state, configuration and publication showing
one announcement on the first delivery and zero on the duplicate. -/
theorem C4_duplicate_suppression_w :
    countAnnounces (step initState ⟨0, ⟨true, [("UCa", ⟨7, "New: %ID%"⟩)], none⟩, true⟩
        (Event.publication ⟨"Hello", "XYZ", "UCa"⟩)).2 = 1 ∧
    countAnnounces (step
        (step initState ⟨0, ⟨true, [("UCa", ⟨7, "New: %ID%"⟩)], none⟩, true⟩
          (Event.publication ⟨"Hello", "XYZ", "UCa"⟩)).1
        ⟨0, ⟨true, [("UCa", ⟨7, "New: %ID%"⟩)], none⟩, true⟩
        (Event.publication ⟨"Hello", "XYZ", "UCa"⟩)).2 = 0 :=
  ⟨(C4_duplicate_suppression initState
      ⟨0, ⟨true, [("UCa", ⟨7, "New: %ID%"⟩)], none⟩, true⟩
      ⟨0, ⟨true, [("UCa", ⟨7, "New: %ID%"⟩)], none⟩, true⟩
      ⟨"Hello", "XYZ", "UCa"⟩ ⟨"Hello", "XYZ", "UCa"⟩
      rfl (by decide) (by decide) rfl).1,
   (C4_duplicate_suppression initState
      ⟨0, ⟨true, [("UCa", ⟨7, "New: %ID%"⟩)], none⟩, true⟩
      ⟨0, ⟨true, [("UCa", ⟨7, "New: %ID%"⟩)], none⟩, true⟩
      ⟨"Hello", "XYZ", "UCa"⟩ ⟨"Hello", "XYZ", "UCa"⟩
      rfl (by decide) (by decide) rfl).2.2⟩

/-- C5: A Subscribed(topic, leaseSeconds) event records for the topic the
expiry `now + max(leaseSeconds - 600, 0)` (`Nat` subtraction saturates like
`u64::saturating_sub`); in particular leaseSeconds = 700 yields now+100 and
leaseSeconds = 300 yields now+0. -/
theorem C5_lease_expiry (s : AnnouncerState) (a : Ambient)
    (ch : YoutubeChannel) (lease : Nat) :
    alLookup ch ((step s a (.subscribed ch lease)).1.subscribed)
      = some (a.now + (lease - 600)) ∧
    (lease = 700 →
      alLookup ch ((step s a (.subscribed ch lease)).1.subscribed)
        = some (a.now + 100)) ∧
    (lease = 300 →
      alLookup ch ((step s a (.subscribed ch lease)).1.subscribed)
        = some a.now) := by
  have h1 : (step s a (.subscribed ch lease)).1.subscribed
      = alInsert ch (a.now + (lease - 600)) s.subscribed := rfl
  refine ⟨?_, ?_, ?_⟩
  · rw [h1]
    exact alLookup_insert_self
  · intro h
    subst h
    rw [h1]
    exact alLookup_insert_self
  · intro h
    subst h
    rw [h1]
    simpa using @alLookup_insert_self Nat ch (a.now + (300 - 600)) s.subscribed

/-- Witness for C5: lease 700 at time 5 records expiry 105 = 5 + 100. -/
theorem C5_lease_expiry_w :
    alLookup "UCa" ((step initState ⟨5, YoutubeConfig.default, true⟩
      (Event.subscribed "UCa" 700)).1.subscribed) = some (5 + 100) :=
  (C5_lease_expiry initState ⟨5, YoutubeConfig.default, true⟩ "UCa" 700).2.1 rfl

/-- C2 counterexample: the hub replies with HTTP status 500 (a non-2xx,
non-success status), yet `Subscriber::subscribe` reports success: the source
propagates only transport errors through `send().await?` and never inspects
the response status (there is no `error_for_status`).  This refutes the claim
that the Hub Client never reports success when the hub responds with a
non-2xx status. -/
theorem C2_nonsuccess_status_ok_cex :
    Subscriber.subscribe "http://cb/yt" (fun _ => HttpResult.response 500) "UCabc"
      = Except.ok () := rfl

/-- C2 amended: if the transport fails or times out, the subscribe call
returns a failure to the Reconciler; but when any HTTP response is received,
of whatever status (2xx or not), the call reports success — the response
status is not checked. -/
theorem C2_transport_error_surfaced (ext_url : String)
    (transport : SubscribeRequest → HttpResult) (ch : YoutubeChannel) :
    (∀ e, transport (subscribeRequest ext_url ch) = HttpResult.transportError e →
       Subscriber.subscribe ext_url transport ch = Except.error e) ∧
    (∀ st, transport (subscribeRequest ext_url ch) = HttpResult.response st →
       Subscriber.subscribe ext_url transport ch = Except.ok ()) := by
  constructor
  · intro e h
    simp [Subscriber.subscribe, h]
  · intro st h
    simp [Subscriber.subscribe, h]

/-- Witness for C2 (amended): a transport timeout is surfaced as an error. -/
theorem C2_transport_error_surfaced_w :
    Subscriber.subscribe "http://cb/yt"
      (fun _ => HttpResult.transportError "timeout") "UCabc"
      = Except.error "timeout" :=
  (C2_transport_error_surfaced "http://cb/yt"
    (fun _ => HttpResult.transportError "timeout") "UCabc").1 "timeout" rfl

/-- Configuration used by the C3 counterexample: two subscriptions, in
iteration order "a" before "b". -/
def cexCfg : YoutubeConfig := ⟨true, [("a", ⟨1, "x"⟩), ("b", ⟨2, "y"⟩)], none⟩

/-- Trace for the C3 counterexample: subscribe to "a" (tick at t=0),
confirmation `Subscribed("a", 610)` (expiry t=10), then a tick at t=0 whose
candidate is "b" and whose subscribe call fails. -/
def cexTrace : List (Ambient × Event) :=
  [(⟨0, cexCfg, true⟩, Event.updateSubscriptions),
   (⟨0, cexCfg, true⟩, Event.subscribed "a" 610),
   (⟨0, cexCfg, false⟩, Event.updateSubscriptions)]

/-- C3 counterexample: at the failing tick (t=0) the candidate is "b", but on
the next Reconsider tick (t=30) the lease of "a" has expired and been swept,
so the candidate — and the topic actually subscribed — is "a", not the failed
topic "b".  This refutes "on the next Reconsider tick the same topic is
retried" as an unconditional statement. -/
theorem C3_retry_same_topic_cex :
    candidate cexCfg.subscriptions
      (sweep 0 (runTrace (cexTrace.take 2)).pending)
      (sweep 0 (runTrace (cexTrace.take 2)).subscribed) = some "b" ∧
    candidate cexCfg.subscriptions
      (sweep 30 (runTrace cexTrace).pending)
      (sweep 30 (runTrace cexTrace).subscribed) = some "a" ∧
    alLookup "b"
      (runTrace (cexTrace ++ [(⟨30, cexCfg, true⟩, Event.updateSubscriptions)])).pending
      = none ∧
    alLookup "a"
      (runTrace (cexTrace ++ [(⟨30, cexCfg, true⟩, Event.updateSubscriptions)])).pending
      = some 60 := by
  refine ⟨by decide, by decide, by decide, by decide⟩

/-- C3 amended: on a Reconsider tick with an enabled configuration and a
candidate topic: on failure of the subscribe call the topic is inserted into
neither Pending nor Subscribed (both maps are exactly the swept originals, so
it remains a candidate), the next wake is set to now+30s and the minima-based
wake computation is skipped; on success the topic is inserted into Pending
with deadline now+30s, with the same wake scheduling.  The next Reconsider
tick retries the same topic provided the configuration is unchanged and no
Pending/Subscribed entry expires by that tick (an expiry can free a topic
earlier in iteration order, which is then retried instead — see the
counterexample). -/
theorem C3_reconcile_subscribe (s : AnnouncerState) (a : Ambient)
    (ch : YoutubeChannel)
    (hen : a.cfg.enabled = true)
    (hc : candidate a.cfg.subscriptions (sweep a.now s.pending)
            (sweep a.now s.subscribed) = some ch) :
    (a.subscribeOk = false →
       (step s a Event.updateSubscriptions).1.pending = sweep a.now s.pending ∧
       (step s a Event.updateSubscriptions).1.subscribed = sweep a.now s.subscribed ∧
       alLookup ch (step s a Event.updateSubscriptions).1.pending = none ∧
       alLookup ch (step s a Event.updateSubscriptions).1.subscribed = none ∧
       (step s a Event.updateSubscriptions).1.timer = a.now + timeout) ∧
    (a.subscribeOk = true →
       (step s a Event.updateSubscriptions).1.pending
         = alInsert ch (a.now + timeout) (sweep a.now s.pending) ∧
       alLookup ch (step s a Event.updateSubscriptions).1.pending
         = some (a.now + timeout) ∧
       (step s a Event.updateSubscriptions).1.timer = a.now + timeout) ∧
    (∀ a2 : Ambient, a.subscribeOk = false → a2.cfg = a.cfg →
       sweep a2.now (sweep a.now s.pending) = sweep a.now s.pending →
       sweep a2.now (sweep a.now s.subscribed) = sweep a.now s.subscribed →
       candidate a2.cfg.subscriptions
         (sweep a2.now (step s a Event.updateSubscriptions).1.pending)
         (sweep a2.now (step s a Event.updateSubscriptions).1.subscribed)
         = some ch) := by
  refine ⟨?_, ?_, ?_⟩
  · intro hok
    refine ⟨?_, ?_, ?_, ?_, ?_⟩
    · simp [step, reconsider, hen, hc, hok]
    · simp [step, reconsider, hen, hc, hok]
    · simp only [step, reconsider, hen, hc, hok]
      simpa using (candidate_spec hc).1
    · simp only [step, reconsider, hen, hc, hok]
      simpa using (candidate_spec hc).2
    · simp [step, reconsider, hen, hc, hok]
  · intro hok
    refine ⟨?_, ?_, ?_⟩
    · simp [step, reconsider, hen, hc, hok]
    · simp only [step, reconsider, hen, hc, hok]
      simpa using @alLookup_insert_self Nat ch (a.now + timeout)
        (sweep a.now s.pending)
    · simp [step, reconsider, hen, hc, hok]
  · intro a2 hok hcfg hsp hss
    have hp : (step s a Event.updateSubscriptions).1.pending
        = sweep a.now s.pending := by
      simp [step, reconsider, hen, hc, hok]
    have hsbd : (step s a Event.updateSubscriptions).1.subscribed
        = sweep a.now s.subscribed := by
      simp [step, reconsider, hen, hc, hok]
    rw [hp, hsbd, hsp, hss, hcfg]
    exact hc

/-- Witness for C3 (amended): with a single configured topic "UCa" and a
failing subscribe call at t=0, the topic stays out of Pending and is the
candidate again at the t=30 tick. -/
theorem C3_reconcile_subscribe_w :
    alLookup "UCa" (step initState ⟨0, ⟨true, [("UCa", ⟨1, "t"⟩)], none⟩, false⟩
      Event.updateSubscriptions).1.pending = none ∧
    candidate [("UCa", (⟨1, "t"⟩ : Subscription))]
      (sweep 30 (step initState ⟨0, ⟨true, [("UCa", ⟨1, "t"⟩)], none⟩, false⟩
        Event.updateSubscriptions).1.pending)
      (sweep 30 (step initState ⟨0, ⟨true, [("UCa", ⟨1, "t"⟩)], none⟩, false⟩
        Event.updateSubscriptions).1.subscribed) = some "UCa" :=
  ⟨((C3_reconcile_subscribe initState ⟨0, ⟨true, [("UCa", ⟨1, "t"⟩)], none⟩, false⟩
      "UCa" rfl (by decide)).1 rfl).2.2.1,
   (C3_reconcile_subscribe initState ⟨0, ⟨true, [("UCa", ⟨1, "t"⟩)], none⟩, false⟩
      "UCa" rfl (by decide)).2.2 ⟨30, ⟨true, [("UCa", ⟨1, "t"⟩)], none⟩, false⟩
      rfl rfl (by decide) (by decide)⟩

theorem entry_text_error {entry : Element} {name ns : String} {e : PubError}
    (h : entry_text entry name ns = .error e) :
    e = PubError.missingChild name ∨ e = PubError.missingChildInner name := by
  unfold entry_text at h
  split at h
  · left
    injection h with h2
    exact h2.symm
  · split at h
    · right
      injection h with h2
      exact h2.symm
    · exact absurd h (by simp)

theorem fromStr_not_invalidXml {parse : String → Option Element} {s : String}
    {root : Element} (hp : parse s = some root) :
    Publication.fromStr parse s ≠ .error .invalidXml := by
  intro h
  simp only [Publication.fromStr, hp] at h
  split at h
  · simp at h
  · split at h
    · rename_i e heq
      injection h with h2
      subst h2
      rcases entry_text_error heq with hn | hn <;> simp at hn
    · split at h
      · rename_i e heq
        injection h with h2
        subst h2
        rcases entry_text_error heq with hn | hn <;> simp at hn
      · split at h
        · rename_i e heq
          injection h with h2
          subst h2
          rcases entry_text_error heq with hn | hn <;> simp at hn
        · simp at h

/-- C7: For every input string, parsing a Publication either succeeds (with
title, content id, and topic all extracted into the result) or fails with one
of InvalidXml, MissingChild(name), or MissingChildInner(name); InvalidXml
occurs exactly when the XML document does not parse; and on any failure the
POST route answers 400 and enqueues no event. -/
theorem C7_parse_failure_modes (parse : String → Option Element) (s : String) :
    ((∃ p, Publication.fromStr parse s = Except.ok p) ∨
     Publication.fromStr parse s = Except.error PubError.invalidXml ∨
     (∃ n, Publication.fromStr parse s = Except.error (PubError.missingChild n)) ∨
     (∃ n, Publication.fromStr parse s
        = Except.error (PubError.missingChildInner n))) ∧
    (parse s = none ↔
      Publication.fromStr parse s = Except.error PubError.invalidXml) ∧
    (∀ e (decode : List Nat → Option String) (bytes : List Nat),
       Publication.fromStr parse s = Except.error e → decode bytes = some s →
       postRoute decode parse bytes = (400, [])) := by
  refine ⟨?_, ⟨fun hn => by simp [Publication.fromStr, hn], fun h => ?_⟩, ?_⟩
  · cases hp : parse s with
    | none => exact Or.inr (Or.inl (by simp [Publication.fromStr, hp]))
    | some root =>
      cases hentry : getChild root "entry" BASE_NS with
      | none =>
        exact Or.inr (Or.inr (Or.inl
          ⟨"entry", by simp [Publication.fromStr, hp, hentry]⟩))
      | some entry =>
        cases ht : entry_text entry "title" BASE_NS with
        | error e =>
          rcases entry_text_error ht with hn | hn
          · exact Or.inr (Or.inr (Or.inl
              ⟨"title", by simp [Publication.fromStr, hp, hentry, ht, hn]⟩))
          · exact Or.inr (Or.inr (Or.inr
              ⟨"title", by simp [Publication.fromStr, hp, hentry, ht, hn]⟩))
        | ok title =>
          cases hv : entry_text entry "videoId" YT_NS with
          | error e =>
            rcases entry_text_error hv with hn | hn
            · exact Or.inr (Or.inr (Or.inl
                ⟨"videoId", by simp [Publication.fromStr, hp, hentry, ht, hv, hn]⟩))
            · exact Or.inr (Or.inr (Or.inr
                ⟨"videoId", by simp [Publication.fromStr, hp, hentry, ht, hv, hn]⟩))
          | ok vid =>
            cases hcc : entry_text entry "channelId" YT_NS with
            | error e =>
              rcases entry_text_error hcc with hn | hn
              · exact Or.inr (Or.inr (Or.inl ⟨"channelId",
                  by simp [Publication.fromStr, hp, hentry, ht, hv, hcc, hn]⟩))
              · exact Or.inr (Or.inr (Or.inr ⟨"channelId",
                  by simp [Publication.fromStr, hp, hentry, ht, hv, hcc, hn]⟩))
            | ok chn =>
              exact Or.inl ⟨⟨title, vid, chn⟩,
                by simp [Publication.fromStr, hp, hentry, ht, hv, hcc]⟩
  · cases hp : parse s with
    | none => rfl
    | some root => exact absurd h (fromStr_not_invalidXml hp)
  · intro e decode bytes he hd
    simp [postRoute, http_post, hd, he]

/-- Witness for C7: an unparsable document yields 400 and no event. -/
theorem C7_parse_failure_modes_w :
    postRoute (fun _ => some "not xml") (fun _ => none) [60] = (400, []) :=
  (C7_parse_failure_modes (fun _ => none) "not xml").2.2
    PubError.invalidXml (fun _ => some "not xml") [60] rfl rfl

/-- C9: A POST body that is not valid UTF-8 is rejected with 400 and no event
is enqueued; the result is independent of the XML parse function, i.e. the
body never reaches the Feed Parser. -/
theorem C9_non_utf8_rejected (decode : List Nat → Option String)
    (bytes : List Nat) (h : decode bytes = none)
    (parse : String → Option Element) :
    postRoute decode parse bytes = (400, []) := by
  simp [postRoute, http_post, h]

/-- Witness for C9: a body whose UTF-8 decode fails yields 400 and no event. -/
theorem C9_non_utf8_rejected_w :
    postRoute (fun _ => none) (fun _ => none) [255] = (400, []) :=
  C9_non_utf8_rejected (fun _ => none) [255] rfl (fun _ => none)

/-- C8: A webhook GET with mode=subscribe, a topic matching the feed-URL
prefix whose channel is present in DesiredSet, a challenge, and a numeric
lease_seconds is answered 200 with body equal to the challenge and enqueues
Subscribed(topic, leaseSeconds); a GET whose topic matches the prefix but is
absent from DesiredSet is answered 404 with no event (no ledger mutation). -/
theorem C8_webhook_verification (cfg : YoutubeConfig)
    (query : List (String × String)) (topic chal ls ch : String) (lease : Nat)
    (hm : alLookup "hub.mode" query = some "subscribe")
    (ht : alLookup "hub.topic" query = some topic)
    (hpre : strStartsWith topic TOPIC_URL = true)
    (hch : ch = strDropChars topic TOPIC_URL.length) :
    ((alLookup ch cfg.subscriptions).isSome = true →
       alLookup "hub.challenge" query = some chal →
       alLookup "hub.lease_seconds" query = some ls →
       parseU64 ls = some lease →
       http_get cfg query
         = (some (GetReply.challengeBody chal), [Event.subscribed ch lease])) ∧
    (alLookup ch cfg.subscriptions = none →
       http_get cfg query = (some (GetReply.status 404), [])) := by
  subst hch
  constructor
  · intro hin hcl hls hlease
    cases hsub : alLookup (strDropChars topic TOPIC_URL.length) cfg.subscriptions with
    | none => rw [hsub] at hin; simp at hin
    | some rule =>
      simp [http_get, hm, ht, hpre, hsub, hcl, hls, hlease]
  · intro h404
    simp [http_get, hm, ht, hpre, h404]

/-- Witness for C8: a concrete verification GET for the known channel "UCabc"
echoes the challenge and enqueues the Subscribed event, while the unknown
channel "UCzzz" gets a 404 and no event. -/
theorem C8_webhook_verification_w :
    http_get ⟨true, [("UCabc", ⟨1, "t"⟩)], none⟩
      [("hub.mode", "subscribe"), ("hub.topic", TOPIC_URL ++ "UCabc"),
       ("hub.challenge", "abc123"), ("hub.lease_seconds", "700")]
      = (some (GetReply.challengeBody "abc123"), [Event.subscribed "UCabc" 700]) ∧
    http_get ⟨true, [("UCabc", ⟨1, "t"⟩)], none⟩
      [("hub.mode", "subscribe"), ("hub.topic", TOPIC_URL ++ "UCzzz"),
       ("hub.challenge", "abc123"), ("hub.lease_seconds", "700")]
      = (some (GetReply.status 404), []) :=
  ⟨(C8_webhook_verification ⟨true, [("UCabc", ⟨1, "t"⟩)], none⟩
      [("hub.mode", "subscribe"), ("hub.topic", TOPIC_URL ++ "UCabc"),
       ("hub.challenge", "abc123"), ("hub.lease_seconds", "700")]
      (TOPIC_URL ++ "UCabc") "abc123" "700" "UCabc" 700
      (by decide) (by decide) (by decide) (by decide)).1
      (by decide) (by decide) (by decide) (by decide),
   (C8_webhook_verification ⟨true, [("UCabc", ⟨1, "t"⟩)], none⟩
      [("hub.mode", "subscribe"), ("hub.topic", TOPIC_URL ++ "UCzzz"),
       ("hub.challenge", "abc123"), ("hub.lease_seconds", "700")]
      (TOPIC_URL ++ "UCzzz") "abc123" "700" "UCzzz" 700
      (by decide) (by decide) (by decide) (by decide)).2 (by decide)⟩

/-- C10: A configuration update installs the new configuration and enqueues
UpdateSubscriptions iff the newly installed configuration is enabled;
moreover a reconciliation tick seen while disabled leaves the timer (the next
wake) unchanged, so after disabling the next wake comes only from the
previously set timer or an external event. -/
theorem C10_config_update_signal (cur incoming : YoutubeConfig)
    (s : AnnouncerState) (a : Ambient) :
    (configUpdate cur incoming).1 = incoming ∧
    (incoming.enabled = true →
      (configUpdate cur incoming).2.2 = [Event.updateSubscriptions]) ∧
    (incoming.enabled = false → (configUpdate cur incoming).2.2 = []) ∧
    (a.cfg.enabled = false →
      (step s a Event.updateSubscriptions).1.timer = s.timer) := by
  refine ⟨rfl, ?_, ?_, ?_⟩
  · intro h
    simp [configUpdate, h]
  · intro h
    simp [configUpdate, h]
  · intro h
    simp [step, reconsider, h]

/-- Witness for C10: replacing the configuration with a disabled one emits no
event, and a tick under a disabled snapshot leaves the timer untouched. -/
theorem C10_config_update_signal_w :
    (configUpdate YoutubeConfig.default YoutubeConfig.default).2.2 = [] ∧
    (step initState ⟨0, YoutubeConfig.default, true⟩
      Event.updateSubscriptions).1.timer = initState.timer :=
  ⟨(C10_config_update_signal YoutubeConfig.default YoutubeConfig.default
      initState ⟨0, YoutubeConfig.default, true⟩).2.2.1 rfl,
   (C10_config_update_signal YoutubeConfig.default YoutubeConfig.default
      initState ⟨0, YoutubeConfig.default, true⟩).2.2.2 rfl⟩

end Dnbot
